import Mathlib

/-!
Verification of the funding-instrument matching engine (`matcher.py`).

The scoring core is embedded shallowly: each Python construct is translated
into an executable Lean definition.  Python string builtins (`str.lower`,
`str.strip`, `str.split`, `str.replace`) are re-implemented here as
structurally recursive functions over `List Char` so that every definition
evaluates inside the kernel; they agree with CPython on the ASCII data the
matcher manipulates.  `datetime.utcnow().date()` is made an explicit `today`
parameter (a proleptic-Gregorian ordinal, as in CPython `date.toordinal`),
so the timing criterion is a pure function of its inputs and the evaluation
date.  Python exceptions are modelled with `Except` / `Option`.
-/

/-! ### Python string primitives -/

/-- `str.lower()` (ASCII range, which covers the matcher vocabulary). -/
def pyLower (s : String) : String := ⟨s.data.map Char.toLower⟩

/-- Python whitespace for `str.strip()` / `str.split()`. -/
def isPySpace (c : Char) : Bool :=
  c = ' ' || c = '\t' || c = '\n' || c = '\r' || c = '\x0b' || c = '\x0c'

/-- `str.strip()`: drop leading and trailing whitespace. -/
def pyStrip (s : String) : String :=
  ⟨((s.data.dropWhile isPySpace).reverse.dropWhile isPySpace).reverse⟩

/-- Character-list core of `str.split(sep)` for a one-character separator. -/
def splitOnCharAux (sep : Char) : List Char → List (List Char)
  | [] => [[]]
  | c :: cs =>
    match splitOnCharAux sep cs with
    | [] => [[]]
    | p :: ps => if c = sep then [] :: p :: ps else (c :: p) :: ps

/-- `str.split(sep)` for a one-character separator (the matcher only ever
splits on the one-character separators "–" and "-"). -/
def splitOnChar (sep : Char) (s : String) : List String :=
  (splitOnCharAux sep s.data).map (fun cs => ⟨cs⟩)

/-- `str.split()` with no argument: split on whitespace runs, dropping
empty pieces. -/
def pySplitWs (s : String) : List String :=
  ((splitOnCharAux ' ' (s.data.map (fun c => if isPySpace c then ' ' else c))).map
    (fun cs => (⟨cs⟩ : String))).filter (fun p => p ≠ "")

/-- `str.replace(",", " ")`: a one-character-for-one-character replace. -/
def pyReplaceChar (a b : Char) (s : String) : String :=
  ⟨s.data.map (fun c => if c = a then b else c)⟩

/-- Code-point lexicographic `<` on character lists, as CPython compares
`str` values. -/
def lexLt : List Char → List Char → Bool
  | [], [] => false
  | [], _ :: _ => true
  | _ :: _, [] => false
  | a :: as, b :: bs =>
    if a.toNat < b.toNat then true
    else if b.toNat < a.toNat then false
    else lexLt as bs

/-- CPython `str` `<`. -/
def pyStrLt (a b : String) : Bool := lexLt a.data b.data

/-- `sorted(...)` on strings: Python sorted is a stable comparison sort;
on a total order the result is the unique ascending reordering, which
insertion sort produces. -/
def pySorted (l : List String) : List String :=
  l.insertionSort (fun a b => pyStrLt b a = false)

/-- `repr` of a Python list of strings as it appears inside an f-string,
e.g. `['FI', 'EU']`. -/
def pyReprList (l : List String) : String :=
  "[" ++ String.intercalate (", ") (l.map (fun s => "\x27" ++ s ++ "\x27")) ++ "]"

/-- Digit test for `strptime` fields. -/
def isDigitChar (c : Char) : Bool := Char.isDigit c

/-- Value of an all-digit character list. -/
def digitsToNat (cs : List Char) : Nat :=
  cs.foldl (fun acc c => acc * 10 + (c.toNat - 48)) 0

/-! ### Dates (`datetime.date`, proleptic Gregorian) -/

def isLeap (y : Nat) : Bool := y % 4 = 0 && (y % 100 ≠ 0 || y % 400 = 0)

def daysInMonth (y m : Nat) : Nat :=
  if m = 2 then (if isLeap y then 29 else 28)
  else if m = 4 || m = 6 || m = 9 || m = 11 then 30
  else 31

def daysBeforeYear (y : Nat) : Nat :=
  (y - 1) * 365 + (y - 1) / 4 - (y - 1) / 100 + (y - 1) / 400

def daysBeforeMonth (y m : Nat) : Nat :=
  (List.range (m - 1)).foldl (fun acc i => acc + daysInMonth y (i + 1)) 0

/-- CPython `date(y, m, d).toordinal()` (day 1 = 0001-01-01). -/
def toordinal (y m d : Nat) : Int :=
  ((daysBeforeYear y + daysBeforeMonth y m + d : Nat) : Int)

/-- `datetime.strptime(s, "%Y-%m-%d").date().toordinal()`, or `none` when
CPython `strptime` would raise: `%Y` is exactly four digits, `%m` and `%d`
are one or two digits in range, the three fields are separated by literal
dashes with nothing left over, and the day exists in the month. -/
def parse_iso_date (s : String) : Option Int :=
  match splitOnChar '-' s with
  | [ys, ms, ds] =>
    if ys.data.length = 4 ∧ ys.data.all isDigitChar ∧
       1 ≤ ms.data.length ∧ ms.data.length ≤ 2 ∧ ms.data.all isDigitChar ∧
       1 ≤ ds.data.length ∧ ds.data.length ≤ 2 ∧ ds.data.all isDigitChar then
      let y := digitsToNat ys.data
      let m := digitsToNat ms.data
      let d := digitsToNat ds.data
      if 1 ≤ y ∧ 1 ≤ m ∧ m ≤ 12 ∧ 1 ≤ d ∧ d ≤ daysInMonth y m then
        some (toordinal y m d)
      else none
    else none
  | _ => none

/-! ### Data model (`models.py`) -/

structure CompanyProfile where
  name : String
  business_id : Option String
  industry : String
  revenue_class : String
  employees : Int
  stage : String
  funding_need_types : List String
  funding_amount_min : Option Int
  funding_amount_max : Option Int
  country : String := "Finland"
deriving DecidableEq

structure FundingInstrument where
  id : String
  name : String
  provider : String
  url : String
  description : String
  target_stages : List String
  target_industries : List String
  funding_need_types : List String
  min_amount : Option Int
  max_amount : Option Int
  geography : List String
  application_type : String
  application_window : Option String
  notes : Option String := none
deriving DecidableEq

/-! ### Vocabularies and validation (`matcher.py` top of file) -/

def STAGES : List String := ["pre-seed", "seed", "growth", "scale-up"]

/-- The Python source holds these in a `set`; a duplicate-free list models
it (only membership, `sorted`, and comprehension over it are used). -/
def FUNDING_NEED_TYPES : List String :=
  ["RDI", "internationalization", "investments", "working capital"]

/-- `validate_stage`: raises `ValueError` unless the stage is in `STAGES`. -/
def validate_stage (stage : String) : Except String String :=
  if STAGES.contains stage = false then
    .error ("Stage \x27" ++ stage ++ "\x27 is not one of " ++ pyReprList STAGES)
  else .ok stage

/-- The comprehension `[n for n in needs if n.lower() not in {t.lower() for t
in FUNDING_NEED_TYPES}]`. -/
def invalid_needs (needs : List String) : List String :=
  needs.filter (fun n => !((FUNDING_NEED_TYPES.map pyLower).contains (pyLower n)))

/-- `validate_need_types`: raises `ValueError` naming the invalid labels and
the sorted allowed vocabulary. -/
def validate_need_types (needs : List String) : Except String (List String) :=
  if invalid_needs needs ≠ [] then
    .error ("Unknown funding_need_types: " ++ pyReprList (invalid_needs needs) ++
      ". Allowed: " ++ pyReprList (pySorted FUNDING_NEED_TYPES))
  else .ok needs

/-! ### Scoring criteria (`score_instrument`, one definition per commented
block of the source; each block adds a score delta and appends reasons) -/

/-- Block 0) Geography. Always appends exactly one reason. -/
def geo_part (company : CompanyProfile) (instrument : FundingInstrument) :
    Int × String :=
  let company_country := pyLower company.country
  let geos_lower := instrument.geography.map pyLower
  if company_country = "finland" ∨ company_country = "fi" then
    if geos_lower.contains ("fi") then
      (4, "Company is in Finland and the instrument explicitly covers FI.")
    else if ["eu", "europe", "nordic"].any (fun g => geos_lower.contains g) then
      (1, "Instrument is regional (EU / Nordic) and may cover Finnish companies.")
    else
      (-8, "Instrument geography " ++ pyReprList instrument.geography ++
        " does not appear to cover Finland.")
  else
    if geos_lower.contains company_country then
      (2, "Instrument explicitly covers company country " ++ company.country ++ ".")
    else if ["eu", "europe"].any (fun g => geos_lower.contains g) then
      (1, "Instrument is EU-wide and may include the company country.")
    else
      (-5, "Geographic fit uncertain for country " ++ company.country ++ ".")

/-- `stage_order.get(s)`: index of a stage in `STAGES`, `None` if absent. -/
def stage_order (s : String) : Option Nat := STAGES.findIdx? (fun t => t = s)

/-- Block 1) Stage fit with adjacency. Always appends exactly one reason. -/
def stage_part (company : CompanyProfile) (instrument : FundingInstrument) :
    Int × String :=
  if instrument.target_stages.contains company.stage then
    (5, "Company stage \x27" ++ company.stage ++ "\x27 is in target stages " ++
      pyReprList instrument.target_stages ++ ".")
  else
    let comp_idx := stage_order company.stage
    let inst_idxs := (instrument.target_stages.map stage_order).filterMap id
    match comp_idx with
    | some ci =>
      if inst_idxs.any (fun idx => ((ci : Int) - (idx : Int)).natAbs = 1) then
        (2, "Company stage \x27" ++ company.stage ++ "\x27 is adjacent to target stages " ++
          pyReprList instrument.target_stages ++ ".")
      else
        (-4, "Company stage \x27" ++ company.stage ++ "\x27 is not aligned with target stages " ++
          pyReprList instrument.target_stages ++ ".")
    | none =>
      (-4, "Company stage \x27" ++ company.stage ++ "\x27 is not aligned with target stages " ++
        pyReprList instrument.target_stages ++ ".")

/-- `{n.lower() for n in company.funding_need_types}` (a duplicate-free
list models the set). -/
def company_needs_set (company : CompanyProfile) : List String :=
  (company.funding_need_types.map pyLower).dedup

/-- `{n.lower() for n in instrument.funding_need_types}`. -/
def instrument_needs_set (instrument : FundingInstrument) : List String :=
  (instrument.funding_need_types.map pyLower).dedup

/-- `company_needs & instrument_needs`. -/
def needs_overlap (company : CompanyProfile) (instrument : FundingInstrument) :
    List String :=
  (company_needs_set company).filter (fun n => (instrument_needs_set instrument).contains n)

/-- Block 2) Funding need overlap.  `coverage = len(overlap) /
max(len(company_needs), 1)` equals `1` exactly when the numerator equals the
denominator (the overlap is a subset of the company needs, and the division
is exact at these tiny sizes).  Always appends exactly one reason. -/
def need_part (company : CompanyProfile) (instrument : FundingInstrument) :
    Int × String :=
  let overlap := needs_overlap company instrument
  if overlap ≠ [] then
    if overlap.length = max (company_needs_set company).length 1 then
      (6, "Funding needs fully covered by instrument focus.")
    else
      (4, "Funding need partially covered: " ++ String.intercalate (", ") (pySorted overlap))
  else
    (-4, "No overlap between funding needs and instrument focus.")

/-- `a is not None and b is not None and a < b`. -/
def optLt : Option Int → Option Int → Bool
  | some a, some b => decide (a < b)
  | _, _ => false

/-- Block 3) Amount range fit. Always appends exactly one reason (an
explanatory one when the company provided no amounts). -/
def amount_part (company : CompanyProfile) (instrument : FundingInstrument) :
    Int × String :=
  let c_min := company.funding_amount_min
  let c_max := company.funding_amount_max
  let i_min := instrument.min_amount
  let i_max := instrument.max_amount
  if c_min.isSome || c_max.isSome then
    if optLt c_max i_min then
      (-5, "Requested max (" ++ toString (c_max.getD 0) ++
        " €) is below instrument minimum (" ++ toString (i_min.getD 0) ++ " €).")
    else if optLt i_max c_min then
      (-5, "Requested min (" ++ toString (c_min.getD 0) ++
        " €) is above instrument maximum (" ++ toString (i_max.getD 0) ++ " €).")
    else
      (2, "Requested amount overlaps the instrument\x27s range.")
  else
    (0, "Funding amount not provided; fit could be improved with ranges.")

/-- `{tok.strip() for tok in company.industry.lower().replace(",", " ").split()
if tok}` — `split()` never yields empty or padded tokens, so the strip and
the truthiness filter are identities. -/
def industry_tokens (company : CompanyProfile) : List String :=
  (pySplitWs (pyReplaceChar ',' ' ' (pyLower company.industry))).dedup

/-- `tok in ind or ind in tok` (CPython substring test). -/
def substrEither (tok ind : String) : Bool :=
  decide (tok.data <:+: ind.data) || decide (ind.data <:+: tok.data)

/-- Block 4) Industry match. Always appends exactly one reason. -/
def industry_part (company : CompanyProfile) (instrument : FundingInstrument) :
    Int × String :=
  let instrument_inds := instrument.target_industries.map pyLower
  if instrument_inds.contains ("all") then
    (1, "Instrument is open to all industries.")
  else
    if instrument_inds.any (fun ind => (industry_tokens company).any (fun tok => substrEither tok ind)) then
      (3, "Company industry \x27" ++ company.industry ++ "\x27 matches instrument focus " ++
        pyReprList instrument.target_industries ++ ".")
    else
      (-2, "Industry \x27" ++ company.industry ++ "\x27 not clearly matched to " ++
        pyReprList instrument.target_industries ++ ".")

/-- Truthiness of `instrument.application_window` (`None` and `""` are falsy). -/
def window_nonempty : Option String → Bool
  | some w => w ≠ ""
  | none => false

def window_str : Option String → String
  | some w => w
  | none => ""

/-- The `try` body: `start_str, end_str = [p.strip() for p in
instrument.application_window.split("–")]` followed by
`datetime.strptime(end_str, "%Y-%m-%d")`.  `none` models the `except`
branch (tuple-unpack failure or parse failure); only the end part is ever
parsed. -/
def parse_window_end (w : String) : Option Int :=
  match (splitOnChar '–' w).map pyStrip with
  | [_start_str, end_str] => parse_iso_date end_str
  | _ => none

/-- The three-way branch on `days_left = (end_date - utcnow().date()).days`. -/
def timing_result (days_left : Int) : Int × List String :=
  if 0 ≤ days_left ∧ days_left ≤ 30 then
    (2, ["Call deadline approaching in " ++ toString days_left ++ " days."])
  else if days_left < 0 then
    (-2, ["Call deadline appears to have passed."])
  else
    (0, ["Call open; " ++ toString days_left ++ " days until deadline."])

/-- Block 5) Application window urgency.  The only block that can append
zero reasons (an application type that is neither call-based-with-window
nor continuous falls through both branches). -/
def timing_part (today : Int) (instrument : FundingInstrument) : Int × List String :=
  if instrument.application_type = "call-based" ∧
      window_nonempty instrument.application_window = true then
    match parse_window_end (window_str instrument.application_window) with
    | some end_ord => timing_result (end_ord - today)
    | none => (0, ["Could not parse application window for urgency scoring."])
  else if instrument.application_type = "continuous" then
    (1, ["Continuous application accepted."])
  else
    (0, [])

/-- The timing outcome as a function of the parsed end date alone (what the
call-based branch computes once the window has been split). -/
def timing_from_end (today : Int) : Option Int → Int × List String
  | some end_ord => timing_result (end_ord - today)
  | none => (0, ["Could not parse application window for urgency scoring."])

/-- `score_instrument(company, instrument) -> (score, reasons)`, with
`datetime.utcnow().date()` lifted to the explicit `today` ordinal. -/
def score_instrument (today : Int) (company : CompanyProfile)
    (instrument : FundingInstrument) : Int × List String :=
  let g := geo_part company instrument
  let s := stage_part company instrument
  let n := need_part company instrument
  let a := amount_part company instrument
  let ind := industry_part company instrument
  let t := timing_part today instrument
  (g.1 + s.1 + n.1 + a.1 + ind.1 + t.1,
   g.2 :: s.2 :: n.2 :: a.2 :: ind.2 :: t.2)

/-! ### Ranking (`rank_instruments`) -/

structure ScoredResult where
  instrument : FundingInstrument
  score : Int
  reasons : List String
deriving DecidableEq

/-- The `scored` list built by the loop, in catalog order. -/
def scored_list (today : Int) (company : CompanyProfile)
    (instruments : List FundingInstrument) : List ScoredResult :=
  instruments.map (fun inst =>
    { instrument := inst
      score := (score_instrument today company inst).1
      reasons := (score_instrument today company inst).2 })

/-- The ordering used by `scored.sort(key=lambda x: x["score"], reverse=True)`:
descending by score. -/
def rankLE (a b : ScoredResult) : Prop := b.score ≤ a.score

instance : DecidableRel rankLE := fun a b => inferInstanceAs (Decidable (b.score ≤ a.score))

instance : IsTotal ScoredResult rankLE := ⟨fun a b => le_total b.score a.score⟩

instance : IsTrans ScoredResult rankLE := ⟨fun _ _ _ h h2 => le_trans h2 h⟩

/-- `rank_instruments`: CPython `list.sort` is a stable sort, and with
`reverse=True` it produces the unique permutation that is descending in the
key and keeps input order on ties; insertion sort under `rankLE` computes
exactly that permutation. -/
def rank_instruments (today : Int) (company : CompanyProfile)
    (instruments : List FundingInstrument) : List ScoredResult :=
  (scored_list today company instruments).insertionSort rankLE

/-! ### Concrete fixtures -/

def exCompany : CompanyProfile :=
  { name := "Example AI Startup"
    business_id := none
    industry := "software, AI"
    revenue_class := "<250k"
    employees := 5
    stage := "seed"
    funding_need_types := ["RDI", "internationalization"]
    funding_amount_min := some 50000
    funding_amount_max := some 200000
    country := "Finland" }

def exInstrument : FundingInstrument :=
  { id := "bf-1"
    name := "Into"
    provider := "Business Finland"
    url := "https://example.org"
    description := "RDI funding"
    target_stages := ["seed"]
    target_industries := ["all"]
    funding_need_types := ["RDI", "internationalization"]
    min_amount := some 10000
    max_amount := some 500000
    geography := ["FI"]
    application_type := "continuous"
    application_window := none
    notes := none }

/-- An equally scoring copy of `exInstrument` under a different id (for the
tie-stability witness). -/
def exInstrumentB : FundingInstrument := { exInstrument with id := "bf-2" }

/-- `exInstrument` restricted to US geography. -/
def usInstrument : FundingInstrument := { exInstrument with geography := ["US"] }

/-- An instrument listing the full country name but not the country code. -/
def finNameInstrument : FundingInstrument := { exInstrument with geography := ["Finland"] }

/-- Call-based instrument with no application window at all. -/
def noWindowInstrument : FundingInstrument :=
  { exInstrument with application_type := "call-based", application_window := none }

/-- Call-based instrument with a present but unparseable window. -/
def badWindowInstrument : FundingInstrument :=
  { exInstrument with application_type := "call-based", application_window := some "H1 2025" }

/-- Call-based instrument whose window has an arbitrary non-date start part
and a valid ISO end part. -/
def oddStartInstrument : FundingInstrument :=
  { exInstrument with
    application_type := "call-based"
    application_window := some "whenever – 2025-03-31" }

/-- Company asking for needs only partially covered by `exInstrument`. -/
def partialNeedsCompany : CompanyProfile :=
  { exCompany with funding_need_types := ["RDI", "investments"] }

/-- Instrument focused on RDI only. -/
def rdiOnlyInstrument : FundingInstrument :=
  { exInstrument with funding_need_types := ["RDI"] }

/-- Company whose requested maximum is below the instrument minimum used in
the spec example. -/
def lowBudgetCompany : CompanyProfile :=
  { exCompany with funding_amount_min := none, funding_amount_max := some 100000 }

/-- Instrument with a 200000 minimum. -/
def highMinInstrument : FundingInstrument :=
  { exInstrument with min_amount := some 200000 }

/-- 2025-03-01 as an ordinal, an evaluation date for timing witnesses. -/
def today0 : Int := toordinal 2025 3 1

/-! ### Sanity examples for the embedding -/

example : parse_iso_date ("2025-03-31") = some (toordinal 2025 3 31) := by decide
example : parse_iso_date ("2025-02-30") = none := by decide
example : parse_window_end ("2025-01-01 – 2025-03-31") = some (toordinal 2025 3 31) := by decide
example : parse_window_end ("garbage") = none := by decide
example : pySorted (["rdi", "investments"]) = ["investments", "rdi"] := by decide
example : pyReprList (["FI"]) = "[\x27FI\x27]" := by decide
example : industry_tokens exCompany = ["software", "ai"] := by decide

/-! ### Claim theorems -/

/-- C1: a Finnish company whose stage, needs, amounts, industry, and timing
all match a single fully compatible FI instrument (geography FI, all
industries, continuous application) scores 4+5+6+2+1+1 = 19, with exactly
six reasons, one per criterion, in the canonical order geography, stage,
need coverage, amount, industry, timing. -/
theorem C1_full_match_total (today : Int) :
    score_instrument today exCompany exInstrument =
      (19,
       ["Company is in Finland and the instrument explicitly covers FI.",
        "Company stage \x27seed\x27 is in target stages [\x27seed\x27].",
        "Funding needs fully covered by instrument focus.",
        "Requested amount overlaps the instrument\x27s range.",
        "Instrument is open to all industries.",
        "Continuous application accepted."]) := by
  rfl

/-- C8: scoring is a deterministic pure function of the company, the
instrument and the evaluation date — identical inputs give identical
(score, reasons) — and it is total: every valid input yields an output
pair. -/
theorem C8_deterministic (today : Int) (c₁ c₂ : CompanyProfile)
    (i₁ i₂ : FundingInstrument) (hc : c₁ = c₂) (hi : i₁ = i₂) :
    score_instrument today c₁ i₁ = score_instrument today c₂ i₂ ∧
    ∃ s r, score_instrument today c₁ i₁ = (s, r) := by
  subst hc
  subst hi
  exact ⟨rfl, (score_instrument today c₁ i₁).1, (score_instrument today c₁ i₁).2, rfl⟩

/-- Witness for C8 at a concrete Finnish company and instrument. -/
theorem C8_deterministic_witness :
    score_instrument 0 exCompany exInstrument = score_instrument 0 exCompany exInstrument ∧
    ∃ s r, score_instrument 0 exCompany exInstrument = (s, r) :=
  C8_deterministic 0 exCompany exCompany exInstrument exInstrument rfl rfl

/-- C3 counterexample: for a call-based instrument whose application window
is missing, the code appends no timing reason at all — the result has five
reasons, none of which is the could-not-parse-urgency reason, contradicting
the claim that a missing window still yields an urgency reason and that
each of the six criteria always appends exactly one reason. -/
theorem C3_counterexample :
    (score_instrument 0 exCompany noWindowInstrument).2.length = 5 ∧
    ((score_instrument 0 exCompany noWindowInstrument).2.contains
      ("Could not parse application window for urgency scoring.")) = false := by
  decide

/-- C3 amended: for a call-based instrument, a present, non-empty but
unparseable window contributes no timing delta and appends the
could-not-parse reason; a missing or empty window contributes no delta and
appends no reason at all; the other five criteria each append exactly one
reason, in the canonical order. -/
theorem C3_timing_amended (today : Int) (company : CompanyProfile)
    (instrument : FundingInstrument)
    (h : instrument.application_type = "call-based") :
    (window_nonempty instrument.application_window = true →
      parse_window_end (window_str instrument.application_window) = none →
      timing_part today instrument =
        (0, ["Could not parse application window for urgency scoring."])) ∧
    (window_nonempty instrument.application_window = false →
      timing_part today instrument = (0, [])) ∧
    (score_instrument today company instrument).2 =
      (geo_part company instrument).2 :: (stage_part company instrument).2 ::
      (need_part company instrument).2 :: (amount_part company instrument).2 ::
      (industry_part company instrument).2 :: (timing_part today instrument).2 := by
  refine ⟨?_, ?_, rfl⟩
  · intro hw hp
    simp [timing_part, h, hw, hp]
  · intro hw
    simp [timing_part, h, hw]

/-- Witness for C3 amended: a call-based instrument with the unparseable
window text "H1 2025" gets no timing delta and the explanatory reason. -/
theorem C3_timing_amended_witness :
    timing_part 0 badWindowInstrument =
      (0, ["Could not parse application window for urgency scoring."]) :=
  (C3_timing_amended 0 exCompany badWindowInstrument rfl).1 (by decide) (by decide)

/-- C10: for a call-based instrument whose non-empty window splits on the
en-dash into exactly two stripped parts, the timing outcome is a function
of the end part alone — the start part is never parsed or validated. -/
theorem C10_end_part_only (today : Int) (instrument : FundingInstrument)
    (w s e : String)
    (ht : instrument.application_type = "call-based")
    (hw : instrument.application_window = some w)
    (hne : w ≠ "")
    (hsplit : (splitOnChar '–' w).map pyStrip = [s, e]) :
    timing_part today instrument = timing_from_end today (parse_iso_date e) := by
  have hcond : instrument.application_type = "call-based" ∧
      window_nonempty instrument.application_window = true := by
    refine ⟨ht, ?_⟩
    rw [hw]
    simpa [window_nonempty] using hne
  rw [timing_part, if_pos hcond, hw]
  show (match parse_window_end w with
        | some end_ord => timing_result (end_ord - today)
        | none => (0, ["Could not parse application window for urgency scoring."])) =
      timing_from_end today (parse_iso_date e)
  rw [parse_window_end, hsplit]
  cases h : parse_iso_date e <;> simp [timing_from_end, h]

/-- Witness for C10: the window "whenever – 2025-03-31" has a non-date
start, yet timing is scored normally from the end date. -/
theorem C10_end_part_only_witness :
    timing_part today0 oddStartInstrument =
      timing_from_end today0 (parse_iso_date ("2025-03-31")) :=
  C10_end_part_only today0 oddStartInstrument "whenever – 2025-03-31" "whenever"
    "2025-03-31" rfl rfl (by decide) (by decide)

/-- C2: ranking returns exactly one ScoredResult per catalog entry — a
permutation of the catalog-ordered scored list, whose score and reasons are
those of score_instrument on that entry, with nothing dropped, duplicated
or filtered — sorted descending by score, and stable: any catalog-ordered
(hence score-descending) selection of entries survives as a sublist of the
output, so ties keep the catalog input order. -/
theorem C2_rank_complete_sorted_stable (today : Int) (company : CompanyProfile)
    (instruments : List FundingInstrument) :
    List.Perm (rank_instruments today company instruments)
      (scored_list today company instruments) ∧
    List.Pairwise rankLE (rank_instruments today company instruments) ∧
    (∀ c : List ScoredResult, List.Pairwise rankLE c →
      List.Sublist c (scored_list today company instruments) →
      List.Sublist c (rank_instruments today company instruments)) := by
  refine ⟨List.perm_insertionSort rankLE _, ?_, ?_⟩
  · exact List.sorted_insertionSort rankLE (scored_list today company instruments)
  · intro c hc hs
    exact List.sublist_insertionSort hc hs

/-- Witness for C2: two identical-scoring instruments keep their catalog
order in the ranked output. -/
theorem C2_rank_witness :
    List.Sublist (scored_list 0 exCompany [exInstrument, exInstrumentB])
      (rank_instruments 0 exCompany [exInstrument, exInstrumentB]) :=
  (C2_rank_complete_sorted_stable 0 exCompany [exInstrument, exInstrumentB]).2.2
    (scored_list 0 exCompany [exInstrument, exInstrumentB])
    (by decide) (List.Sublist.refl _)

/-- C4: for a company registered in Finland (country name or code,
case-insensitive), an instrument listing the code fi scores +4 on
geography, one listing only a regional label among eu, europe, nordic
scores +1, and anything else scores −8; concretely a Finnish company gains
12 points on this criterion going from geography US to geography FI. -/
theorem C4_geography_finland (company : CompanyProfile)
    (instrument : FundingInstrument)
    (h : pyLower company.country = "finland" ∨ pyLower company.country = "fi") :
    (((instrument.geography.map pyLower).contains ("fi")) = true →
      geo_part company instrument =
        (4, "Company is in Finland and the instrument explicitly covers FI.")) ∧
    (((instrument.geography.map pyLower).contains ("fi")) = false →
      (["eu", "europe", "nordic"].any
        (fun g => (instrument.geography.map pyLower).contains g)) = true →
      (geo_part company instrument).1 = 1) ∧
    (((instrument.geography.map pyLower).contains ("fi")) = false →
      (["eu", "europe", "nordic"].any
        (fun g => (instrument.geography.map pyLower).contains g)) = false →
      (geo_part company instrument).1 = -8) ∧
    (geo_part exCompany exInstrument).1 - (geo_part exCompany usInstrument).1 = 12 := by
  refine ⟨?_, ?_, ?_, by decide⟩
  · intro hfi
    simp at hfi
    simp [geo_part, h, hfi]
  · intro hfi hreg
    simp at hfi hreg
    simp only [geo_part]
    rw [if_pos h, if_neg (by simpa using hfi), if_pos (by simpa using hreg)]
  · intro hfi hreg
    simp at hfi hreg
    simp only [geo_part]
    rw [if_pos h, if_neg (by simpa using hfi), if_neg (by simpa using hreg)]

/-- Witness for C4 at a Finnish company against an FI-geography
instrument. -/
theorem C4_geography_finland_witness :
    geo_part exCompany exInstrument =
      (4, "Company is in Finland and the instrument explicitly covers FI.") :=
  (C4_geography_finland exCompany exInstrument (by decide)).1 (by decide)

/-- C9: only the literal code fi in the lowered geography list earns the +4
explicit-coverage score for a Finnish company; a geography naming Finland
in full, with none of the regional labels, falls to the −8 penalty. -/
theorem C9_full_name_not_code (company : CompanyProfile)
    (instrument : FundingInstrument)
    (h : pyLower company.country = "finland" ∨ pyLower company.country = "fi")
    (_hname : ((instrument.geography.map pyLower).contains ("finland")) = true)
    (hfi : ((instrument.geography.map pyLower).contains ("fi")) = false)
    (heu : ((instrument.geography.map pyLower).contains ("eu")) = false)
    (heur : ((instrument.geography.map pyLower).contains ("europe")) = false)
    (hnord : ((instrument.geography.map pyLower).contains ("nordic")) = false) :
    geo_part company instrument =
      (-8, "Instrument geography " ++ pyReprList instrument.geography ++
        " does not appear to cover Finland.") := by
  simp at hfi heu heur hnord
  simp only [geo_part]
  rw [if_pos h, if_neg (by simpa using hfi),
    if_neg (by simpa using And.intro heu (And.intro heur hnord))]

/-- Witness for C9: geography equal to the single entry Finland gets −8. -/
theorem C9_full_name_not_code_witness :
    geo_part exCompany finNameInstrument =
      (-8, "Instrument geography " ++ pyReprList finNameInstrument.geography ++
        " does not appear to cover Finland.") :=
  C9_full_name_not_code exCompany finNameInstrument (by decide) (by decide)
    (by decide) (by decide) (by decide) (by decide)

/-- C5: with I the case-insensitive intersection of company and instrument
need types, full coverage of the company needs (the coverage ratio
len(I)/max(len(needs),1) equal to one) scores +6, a non-empty partial
intersection scores +4 with the matched needs listed alphabetically, and an
empty intersection scores −4. -/
theorem C5_need_coverage (company : CompanyProfile)
    (instrument : FundingInstrument) :
    ((needs_overlap company instrument).length =
        max (company_needs_set company).length 1 →
      need_part company instrument =
        (6, "Funding needs fully covered by instrument focus.")) ∧
    (needs_overlap company instrument ≠ [] →
      (needs_overlap company instrument).length ≠
        max (company_needs_set company).length 1 →
      need_part company instrument =
        (4, "Funding need partially covered: " ++
          String.intercalate (", ") (pySorted (needs_overlap company instrument)))) ∧
    (needs_overlap company instrument = [] →
      need_part company instrument =
        (-4, "No overlap between funding needs and instrument focus.")) := by
  refine ⟨?_, ?_, ?_⟩
  · intro hfull
    have hne : needs_overlap company instrument ≠ [] := by
      intro hz
      rw [hz] at hfull
      have := Nat.le_max_right (company_needs_set company).length 1
      simp at hfull
      omega
    simp [need_part, hne, hfull]
  · intro hne hpart
    simp [need_part, hne, hpart]
  · intro hz
    simp [need_part, hz]

/-- Witness for C5: needs RDI and investments against an RDI-only
instrument is partial coverage with the reason citing rdi. -/
theorem C5_need_coverage_witness :
    need_part partialNeedsCompany rdiOnlyInstrument =
      (4, "Funding need partially covered: " ++
        String.intercalate (", ")
          (pySorted (needs_overlap partialNeedsCompany rdiOnlyInstrument))) :=
  (C5_need_coverage partialNeedsCompany rdiOnlyInstrument).2.1 (by decide) (by decide)

/-- C6: with no company amounts the amount criterion contributes nothing
but an explanatory reason; a company maximum below the instrument minimum,
or a company minimum above the instrument maximum, scores −5 with both
figures cited; otherwise it scores +2, in particular when the instrument
has no bounds. -/
theorem C6_amount_fit (company : CompanyProfile) (instrument : FundingInstrument) :
    (company.funding_amount_min = none → company.funding_amount_max = none →
      amount_part company instrument =
        (0, "Funding amount not provided; fit could be improved with ranges.")) ∧
    (∀ im cm : Int, instrument.min_amount = some im →
      company.funding_amount_max = some cm → cm < im →
      amount_part company instrument =
        (-5, "Requested max (" ++ toString cm ++
          " €) is below instrument minimum (" ++ toString im ++ " €).")) ∧
    (∀ imax cmin : Int, instrument.max_amount = some imax →
      company.funding_amount_min = some cmin → imax < cmin →
      optLt company.funding_amount_max instrument.min_amount = false →
      amount_part company instrument =
        (-5, "Requested min (" ++ toString cmin ++
          " €) is above instrument maximum (" ++ toString imax ++ " €).")) ∧
    ((company.funding_amount_min.isSome || company.funding_amount_max.isSome) = true →
      optLt company.funding_amount_max instrument.min_amount = false →
      optLt instrument.max_amount company.funding_amount_min = false →
      amount_part company instrument =
        (2, "Requested amount overlaps the instrument\x27s range.")) := by
  refine ⟨?_, ?_, ?_, ?_⟩
  · intro hmin hmax
    simp [amount_part, hmin, hmax]
  · intro im cm him hcm hlt
    have h1 : optLt (some cm) (some im) = true := by
      simp [optLt, hlt]
    simp [amount_part, hcm, him, h1]
  · intro imax cmin himax hcmin hlt hfst
    have h2 : optLt (some imax) (some cmin) = true := by
      simp [optLt, hlt]
    simp [amount_part, himax, hcmin, hfst, h2]
  · intro hsome hfst hsnd
    simp [amount_part, hsome, hfst, hsnd]

/-- Witness for C6 at the spec example figures: requested max 100000
against instrument minimum 200000 scores −5 citing both figures. -/
theorem C6_amount_fit_witness :
    amount_part lowBudgetCompany highMinInstrument =
      (-5, "Requested max (" ++ toString (100000 : Int) ++
        " €) is below instrument minimum (" ++ toString (200000 : Int) ++ " €).") :=
  (C6_amount_fit lowBudgetCompany highMinInstrument).2.1 200000 100000 rfl rfl (by decide)

/-- The lowered vocabulary evaluates to the four lowercase labels. -/
theorem needs_vocab_lower :
    FUNDING_NEED_TYPES.map pyLower =
      ["rdi", "internationalization", "investments", "working capital"] := by
  decide

/-- The sorted-vocabulary suffix of the validation error message. -/
theorem needs_vocab_sorted_repr :
    ". Allowed: " ++ pyReprList (pySorted FUNDING_NEED_TYPES) =
      ". Allowed: [\x27RDI\x27, \x27internationalization\x27, \x27investments\x27, \x27working capital\x27]" := by
  decide

/-- C7: validation fails exactly when some supplied label is not
case-insensitively in the fixed four-label vocabulary; the error names the
invalid labels and lists the allowed ones; RDI with bogus fails naming
bogus, and case variants of allowed labels pass. -/
theorem C7_validate_need_types (needs : List String) :
    (validate_need_types needs = Except.ok needs ↔
      ∀ n ∈ needs, pyLower n ∈
        ["rdi", "internationalization", "investments", "working capital"]) ∧
    (invalid_needs needs ≠ [] →
      validate_need_types needs =
        Except.error ("Unknown funding_need_types: " ++ pyReprList (invalid_needs needs) ++
          ". Allowed: [\x27RDI\x27, \x27internationalization\x27, \x27investments\x27, \x27working capital\x27]")) ∧
    validate_need_types ["RDI", "bogus"] =
      Except.error ("Unknown funding_need_types: [\x27bogus\x27]. Allowed: [\x27RDI\x27, \x27internationalization\x27, \x27investments\x27, \x27working capital\x27]") ∧
    validate_need_types ["rdi", "WORKING CAPITAL", "Investments"] =
      Except.ok (["rdi", "WORKING CAPITAL", "Investments"]) := by
  refine ⟨?_, ?_, by rfl, by rfl⟩
  · constructor
    · intro hok n hn
      have hnil : invalid_needs needs = [] := by
        by_contra hne
        simp [validate_need_types, hne] at hok
      have h2 := List.filter_eq_nil_iff.mp hnil n hn
      have hc : (FUNDING_NEED_TYPES.map pyLower).contains (pyLower n) = true := by
        cases hb : (FUNDING_NEED_TYPES.map pyLower).contains (pyLower n) with
        | true => rfl
        | false => exact absurd (by rw [hb]; rfl) h2
      have hm : pyLower n ∈ FUNDING_NEED_TYPES.map pyLower := by
        have h3 : ∃ x ∈ FUNDING_NEED_TYPES, pyLower x = pyLower n := by
          simpa using hc
        exact List.mem_map.mpr h3
      rw [needs_vocab_lower] at hm
      exact hm
    · intro hall
      have hnil : invalid_needs needs = [] := by
        apply List.filter_eq_nil_iff.mpr
        intro n hn
        have hm : pyLower n ∈ FUNDING_NEED_TYPES.map pyLower := by
          rw [needs_vocab_lower]
          exact hall n hn
        simp
        exact List.mem_map.mp hm
      simp [validate_need_types, hnil]
  · intro hne
    rw [validate_need_types, if_pos hne]
    simp only [String.append_assoc]
    rw [needs_vocab_sorted_repr]

/-- Witness for C7: validating RDI with bogus produces the error naming
bogus. -/
theorem C7_validate_need_types_witness :
    validate_need_types ["RDI", "bogus"] =
      Except.error ("Unknown funding_need_types: [\x27bogus\x27]. Allowed: [\x27RDI\x27, \x27internationalization\x27, \x27investments\x27, \x27working capital\x27]") :=
  (C7_validate_need_types ["RDI", "bogus"]).2.1 (by decide)
